import Mathlib

/-!
Verification development for the CBAM chat-assistant repository
(files `streamlit_Chatapp.py`, called the first variant `v1` below, and
`streamlit_Chatapp.v2.py`, the authoritative second variant).

The development shallowly embeds the request-classification pipeline
(Python `re` regular expressions with IGNORECASE, backtracking,
leftmost-search semantics), the cost calculator, the retrieval result
post-processing, the rate-limited retrying completion client, the
per-turn orchestration of `main`, and the carbon-price UI state machine.
Python floats are modelled as rationals, fallible external calls as
`Except`/`Option`-valued oracles passed in explicitly.
-/

/- ================= Python `re` engine =================
A small backtracking regular-expression engine reproducing the Python
`re` semantics used by the source: leftmost search position wins, and at
a given position alternatives are tried left first, greedy repetition
prefers longer, lazy repetition prefers shorter.  Literal characters are
compared case-insensitively (the source compiles every pattern with
`re.IGNORECASE`).  Matching is defined in continuation-passing style
with a fuel parameter bounding the backtracking depth; every repetition
body in the source's patterns consumes at least one character, so a fuel
of `input length + 100` is never exhausted on them. -/

/-- Regular-expression abstract syntax: the constructs appearing in the
source's patterns.  `pred` is a character class, `lit` a
case-insensitive literal, `opt`/`star` greedy `?`/`*`, `lazystar` the
lazy `*?`, `group i` a capturing group numbered `i`. -/
inductive RE where
  | eps : RE
  | pred : (Char → Bool) → RE
  | lit : Char → RE
  | cat : RE → RE → RE
  | alt : RE → RE → RE
  | opt : RE → RE
  | star : RE → RE
  | lazystar : RE → RE
  | group : Nat → RE → RE

/-- Captured groups: association list from group number to captured
characters (most recent capture first, as each group in the source's
patterns captures at most once per match). -/
abbrev Groups := List (Nat × List Char)

/-- Backtracking matcher in continuation-passing style.  `mat fuel re s g k`
attempts to match `re` against a prefix of `s` with groups `g`, calling
the continuation `k` on the remaining input and updated groups; the
first success in Python's preference order is returned. -/
def mat : Nat → RE → List Char → Groups → (List Char → Groups → Option Groups) → Option Groups
  | 0, _, _, _, _ => none
  | _ + 1, RE.eps, s, g, k => k s g
  | _ + 1, RE.pred p, s, g, k =>
      match s with
      | [] => none
      | c :: rest => if p c then k rest g else none
  | _ + 1, RE.lit c, s, g, k =>
      match s with
      | [] => none
      | d :: rest => if d.toLower = c.toLower then k rest g else none
  | fuel + 1, RE.cat r1 r2, s, g, k =>
      mat fuel r1 s g (fun s2 g2 => mat fuel r2 s2 g2 k)
  | fuel + 1, RE.alt r1 r2, s, g, k =>
      match mat fuel r1 s g k with
      | some res => some res
      | none => mat fuel r2 s g k
  | fuel + 1, RE.opt r, s, g, k =>
      match mat fuel r s g k with
      | some res => some res
      | none => k s g
  | fuel + 1, RE.star r, s, g, k =>
      match mat fuel r s g (fun s2 g2 => mat fuel (RE.star r) s2 g2 k) with
      | some res => some res
      | none => k s g
  | fuel + 1, RE.lazystar r, s, g, k =>
      match k s g with
      | some res => some res
      | none => mat fuel r s g (fun s2 g2 => mat fuel (RE.lazystar r) s2 g2 k)
  | fuel + 1, RE.group i r, s, g, k =>
      mat fuel r s g (fun s2 g2 => k s2 ((i, s.take (s.length - s2.length)) :: g2))

/-- Python `re.search`: try a match anchored at each position of the
input, left to right; the first position admitting a match wins. -/
def reSearch (re : RE) : List Char → Option Groups
  | [] => mat 100 re [] [] (fun _ g => some g)
  | c :: rest =>
      match mat ((c :: rest).length + 100) re (c :: rest) [] (fun _ g => some g) with
      | some g => some g
      | none => reSearch re rest

/-- Python `\d` (ASCII). -/
def isDigitPy (c : Char) : Bool := c.isDigit

/-- Python `\s`: ASCII whitespace. -/
def isSpacePy (c : Char) : Bool :=
  c = ' ' || c = '\t' || c = '\n' || c = '\r' || c = '\x0b' || c = '\x0c'

/-- Python `\w` (ASCII approximation): letters, digits, underscore. -/
def isWordPy (c : Char) : Bool := c.isAlphanum || c = '_'

/-- One-or-more repetition `r+` as `r r*`. -/
def rplus (r : RE) : RE := RE.cat r (RE.star r)

/-- Case-insensitive literal string. -/
def litStr (cs : List Char) : RE := cs.foldr (fun c acc => RE.cat (RE.lit c) acc) RE.eps

/-- Pattern for one digit, Python `\d`. -/
def digitRE : RE := RE.pred isDigitPy

/-- Pattern for exactly three digits. -/
def d3RE : RE := RE.cat digitRE (RE.cat digitRE digitRE)

/-- Pattern for a number with an optional decimal part. -/
def numberRE : RE := RE.cat (rplus digitRE) (RE.opt (RE.cat (RE.lit '.') (rplus digitRE)))

/- ================= The source's patterns (second variant) ================= -/

/-- v2 quantity/product pattern
`(\d+(?:,\d\x7b3\x7d)*)\s+tons?\s+(?:of\s+)?(\w+)` with IGNORECASE. -/
def qtyRE : RE :=
  RE.cat (RE.group 1 (RE.cat (rplus digitRE) (RE.star (RE.cat (RE.lit ',') d3RE))))
    (RE.cat (rplus (RE.pred isSpacePy))
      (RE.cat (litStr ("ton".data))
        (RE.cat (RE.opt (RE.lit 's'))
          (RE.cat (rplus (RE.pred isSpacePy))
            (RE.cat (RE.opt (RE.cat (litStr ("of".data)) (rplus (RE.pred isSpacePy))))
              (RE.group 2 (rplus (RE.pred isWordPy))))))))

/-- v2 declared-emissions pattern `(\d+(?:\.\d+)?)\s*tCO2e?(?:/ton)?`
with IGNORECASE — note the trailing `e` is OPTIONAL in the source. -/
def emRE : RE :=
  RE.cat (RE.group 1 numberRE)
    (RE.cat (RE.star (RE.pred isSpacePy))
      (RE.cat (litStr ("tCO2".data))
        (RE.cat (RE.opt (RE.lit 'e')) (RE.opt (litStr ("/ton".data))))))

/-- Python `.` without DOTALL: any character except a newline. -/
def dotRE : RE := RE.pred (fun c => c ≠ '\n')

/-- v2 origin-price pattern `(?:origin|paid|cost).*?€?(\d+(?:\.\d+)?)`
with IGNORECASE; the `.*?` is lazy and cannot cross a newline. -/
def originRE : RE :=
  RE.cat (RE.alt (litStr ("origin".data)) (RE.alt (litStr ("paid".data)) (litStr ("cost".data))))
    (RE.cat (RE.lazystar dotRE)
      (RE.cat (RE.opt (RE.lit '€')) (RE.group 1 numberRE)))

/- ================= The first variant's patterns ================= -/

/-- v1 quantity/product pattern `(\d+)\s+tons?\s+of\s+(\w+)`:
no thousands separators, mandatory `of`. -/
def qtyREv1 : RE :=
  RE.cat (RE.group 1 (rplus digitRE))
    (RE.cat (rplus (RE.pred isSpacePy))
      (RE.cat (litStr ("ton".data))
        (RE.cat (RE.opt (RE.lit 's'))
          (RE.cat (rplus (RE.pred isSpacePy))
            (RE.cat (litStr ("of".data))
              (RE.cat (rplus (RE.pred isSpacePy))
                (RE.group 2 (rplus (RE.pred isWordPy)))))))))

/-- v1 declared-emissions pattern `(\d+(\.\d+)?)\s*tCO2e`:
the trailing `e` is mandatory, no `/ton` suffix. -/
def emREv1 : RE :=
  RE.cat (RE.group 1 (RE.cat (rplus digitRE) (RE.opt (RE.group 2 (RE.cat (RE.lit '.') (rplus digitRE))))))
    (RE.cat (RE.star (RE.pred isSpacePy)) (litStr ("tCO2e".data)))

/-- v1 origin-price pattern `(?:origin|paid).*?€?(\d+(\.\d+)?)`:
no `cost` alternative. -/
def originREv1 : RE :=
  RE.cat (RE.alt (litStr ("origin".data)) (litStr ("paid".data)))
    (RE.cat (RE.lazystar dotRE)
      (RE.cat (RE.opt (RE.lit '€'))
        (RE.group 1 (RE.cat (rplus digitRE) (RE.opt (RE.group 2 (RE.cat (RE.lit '.') (rplus digitRE))))))))

/- ================= Number parsing and the classifier ================= -/

/-- Python `int` on a string of decimal digits. -/
def natOfDigits (cs : List Char) : Nat :=
  cs.foldl (fun n c => 10 * n + (c.toNat - 48)) 0

/-- The apostrophe character (U+0027). -/
def apos : Char := Char.ofNat 39

/-- Python `float` on a captured `\d+(\.\d+)?` string: integer part plus
fractional digits scaled by a power of ten. -/
def ratOfDecimal (cs : List Char) : ℚ :=
  let intPart := cs.takeWhile (fun c => c ≠ '.')
  let fracPart := (cs.dropWhile (fun c => c ≠ '.')).drop 1
  (natOfDigits intPart : ℚ) + (natOfDigits fracPart : ℚ) / ((10 : ℚ) ^ fracPart.length)

/-- The structured result of `extract_cbam_request`: `(product,
quantity, emissions, origin_price)` in the source, with Python's `None`
rendered as `Option.none`. -/
structure ParsedRequest where
  product : Option String
  quantity : Option Nat
  emissions : Option ℚ
  origin_price : ℚ
deriving DecidableEq

/-- The second variant’s `extract_cbam_request`: three independent
`re.search` calls over the full input; quantity is `group(1)` with the
thousands separators stripped, product is `group(2)` lower-cased,
emissions is `float(group(1))` of the emissions match, origin price is
`float(group(1))` of the origin match, defaulting to `0.0`. -/
def extract_cbam_request (text : String) : ParsedRequest :=
  let qty_pat := reSearch qtyRE text.data
  let em_pat := reSearch emRE text.data
  let origin_pat := reSearch originRE text.data
  { product := match qty_pat with
      | some g => (g.lookup 2).map (fun cs => String.mk (cs.map Char.toLower))
      | none => none
    quantity := match qty_pat with
      | some g => (g.lookup 1).map (fun cs => natOfDigits (cs.filter (fun c => c ≠ ',')))
      | none => none
    emissions := match em_pat with
      | some g => (g.lookup 1).map ratOfDecimal
      | none => none
    origin_price := match origin_pat with
      | some g => match g.lookup 1 with
          | some cs => ratOfDecimal cs
          | none => 0
      | none => 0 }

/-- The first variant’s `extract_cbam_request` (same post-processing,
no thousands separators to strip). -/
def extract_cbam_request_v1 (question : String) : ParsedRequest :=
  let m := reSearch qtyREv1 question.data
  let emissions_match := reSearch emREv1 question.data
  let origin_price_match := reSearch originREv1 question.data
  { product := match m with
      | some g => (g.lookup 2).map (fun cs => String.mk (cs.map Char.toLower))
      | none => none
    quantity := match m with
      | some g => (g.lookup 1).map natOfDigits
      | none => none
    emissions := match emissions_match with
      | some g => (g.lookup 1).map ratOfDecimal
      | none => none
    origin_price := match origin_price_match with
      | some g => match g.lookup 1 with
          | some cs => ratOfDecimal cs
          | none => 0
      | none => 0 }

/- ================= Cost calculator ================= -/

/-- Default EU ETS price of the second variant (78.54). -/
def DEFAULT_CARBON_PRICE : ℚ := 3927 / 50

/-- The throttle interval (2.0 time-units). -/
def MIN_REQUEST_INTERVAL : ℚ := 2

/-- The linear-backoff base delay (5 time-units). -/
def RETRY_DELAY : ℚ := 5

/-- The second variant’s `calculate_cbam_cost`.  The session's current
carbon price is passed explicitly as `carbon_price`.  The source line
`eu_price = eu_price or st.session_state.carbon_price` uses Python
truthiness: both `None` and `0.0` fall back to the session price. -/
def calculate_cbam_cost (carbon_price : ℚ) (embedded_emissions : ℚ)
    (origin_price : ℚ) (eu_price : Option ℚ) : ℚ :=
  let eu := match eu_price with
    | none => carbon_price
    | some x => if x = 0 then carbon_price else x
  max 0 (embedded_emissions * (eu - origin_price))

/-- The first variant’s `calculate_cbam_cost`: the fallback tests
`if eu_carbon_price is None`, so an explicit `0.0` is used as given. -/
def calculate_cbam_cost_v1 (carbon_price : ℚ) (embedded_emissions : ℚ)
    (origin_price : ℚ) (eu_price : Option ℚ) : ℚ :=
  let eu := eu_price.getD carbon_price
  max 0 (embedded_emissions * (eu - origin_price))

/- ================= Context retriever ================= -/

/-- One match returned by the external document-search capability. -/
structure SearchResult where
  text : String
  file_name : String
deriving DecidableEq

/-- Python `sep.join(xs)`. -/
def pyJoin (sep : String) : List String → String
  | [] => ""
  | [x] => x
  | x :: y :: xs => x ++ sep ++ pyJoin sep (y :: xs)

/-- Python `s.replace(chr(39), chr(48-48))` on a single-character
pattern with empty replacement: remove every occurrence of the
apostrophe character. -/
def pyStripApos (s : String) : String :=
  String.mk (s.data.filter (fun c => c ≠ apos))

/-- Python slicing `s[:n]` by characters. -/
def pyTruncate (n : Nat) (s : String) : String :=
  String.mk (s.data.take n)

/-- The second variant’s `cortex_search`.  The external call (service
lookup, search, JSON decoding) is abstracted as an `Except` input: `.ok`
carries the ranked result list, `.error` a raised exception.  The body
joins the `text` fields with a blank line, removes apostrophes,
truncates to 8000 characters, and pairs that with the top match's
`file_name` (or the sentinel); the surrounding `try`/`except` converts
any exception into `("", "Error")` after showing a UI error. -/
def cortex_search (resp : Except String (List SearchResult)) : String × String :=
  match resp with
  | Except.ok results =>
      let context := pyStripApos (pyJoin ("\n\n") (results.map SearchResult.text))
      let src := match results with
        | [] => "No source"
        | r :: _ => r.file_name
      (pyTruncate 8000 context, src)
  | Except.error _ => ("", "Error")

/- ================= Completion client ================= -/

/-- Oracle description of one `complete(model, prompt)` attempt:
`resp = some r` means the external call returns `r`, `resp = none`
means it raises; `dur` is the wall-clock duration of the call. -/
structure Attempt where
  resp : Option String
  dur : ℚ
deriving DecidableEq

/-- Observable outcome of one `llm_complete` call: the returned value,
the wall-clock start time of each issued request, the wall-clock time
after the call, the resulting `last_request_time` marker, and the number
of user-visible `st.error` messages shown. -/
structure LlmRun where
  result : Option String
  starts : List ℚ
  now : ℚ
  last_request_time : ℚ
  errors : Nat
deriving DecidableEq

/-- The `for attempt in range(retries)` loop of `llm_complete`.  `rem`
is the number of iterations left, so the current Python `attempt` index
is `retries - rem`.  On success the marker is set to the completion
time and the response returned; on a non-final failure the client
sleeps `RETRY_DELAY * (attempt + 1)` and retries; on the final failure
it shows one error and returns `None`, leaving the marker unchanged. -/
def llm_loop (oracle : Nat → Attempt) (retries : Nat) (last : ℚ) : Nat → ℚ → LlmRun
  | 0, now => ⟨none, [], now, last, 0⟩
  | rem + 1, now =>
      let attempt := retries - (rem + 1)
      let a := oracle attempt
      let now2 := now + a.dur
      match a.resp with
      | some r => ⟨some r, [now], now2, now2, 0⟩
      | none =>
          if rem = 0 then
            ⟨none, [now], now2, last, 1⟩
          else
            let rest := llm_loop oracle retries last rem (now2 + RETRY_DELAY * ((attempt : ℚ) + 1))
            ⟨rest.result, now :: rest.starts, rest.now, rest.last_request_time, rest.errors⟩

/-- The second variant’s `llm_complete` (identical to the first
variant's `complete_with_retry`): measure the elapsed time since the
`last_request_time` marker, sleep for the remaining part of
`MIN_REQUEST_INTERVAL` if needed, then run the retry loop. -/
def llm_complete (oracle : Nat → Attempt) (now last : ℚ) (retries : Nat) : LlmRun :=
  let elapsed := now - last
  let now2 := if elapsed < MIN_REQUEST_INTERVAL then now + (MIN_REQUEST_INTERVAL - elapsed) else now
  llm_loop oracle retries last retries now2

/- ================= Conversation orchestrator ================= -/

/-- One chat message. -/
structure Message where
  role : String
  content : String
deriving DecidableEq

/-- The second variant's `DEFAULT_EMISSIONS` table as `dict.get`. -/
def DEFAULT_EMISSIONS : String → Option ℚ
  | "steel" => some (23 / 10)
  | "aluminum" => some (43 / 5)
  | "cement" => some (9 / 10)
  | "fertilizer" => some (3 / 2)
  | "electricity" => some (2 / 5)
  | "glass" => some (4 / 5)
  | "ceramics" => some (7 / 10)
  | "hydrogen" => some 10
  | _ => none

/-- Python truthiness of an optional string (`None` and `""` falsy). -/
def pyTruthyStr : Option String → Bool
  | some s => s ≠ ""
  | none => false

/-- Python truthiness of an optional integer (`None` and `0` falsy). -/
def pyTruthyNat : Option Nat → Bool
  | some n => n ≠ 0
  | none => false

/-- Observable outcome of one chat turn of `main` (after the user
message is appended): the message list, whether the fast calculator
path answered, the completion-client run when the slow path ran, the
source citation shown (`st.caption`), and the number of user-visible
`st.error` messages. -/
structure TurnResult where
  messages : List Message
  isFast : Bool
  llm : Option LlmRun
  citedSource : Option String
  errors : Nat
deriving DecidableEq

/-- The fast-path calculation response.  The exact `st.markdown` text
(number formatting, separators) is irrelevant to every claim; only its
presence as an appended assistant message matters, so the rendering is
a plain concatenation. -/
def fastResponse (product : String) (quantity : Nat) (em total eu_p origin cost : ℚ) : String :=
  "CBAM Cost Calculation " ++ product ++ " " ++ toString quantity ++ " " ++ toString em
    ++ " " ++ toString total ++ " " ++ toString eu_p ++ " " ++ toString origin ++ " " ++ toString cost

/-- Number of user-visible `st.error` messages shown by
`cortex_search` itself: one when the external call raises. -/
def cortexErrors : Except String (List SearchResult) → Nat
  | Except.ok _ => 0
  | Except.error _ => 1

/-- The slow (retrieval + LLM) branch of `main`: `build_prompt` runs
`cortex_search` (the assembled prompt text itself is not inspected by
any claim), then `llm_complete` with the default `retries = 2`; the
answer is appended together with its source caption only when truthy
(`if answer:`), so `None` and the empty string both leave the
conversation with just the user message. -/
def slowTurn (msgs1 : List Message) (searchResp : Except String (List SearchResult))
    (oracle : Nat → Attempt) (now last : ℚ) : TurnResult :=
  let src := (cortex_search searchResp).2
  let searchErrors : Nat := cortexErrors searchResp
  let run := llm_complete oracle now last 2
  if pyTruthyStr run.result then
    ⟨msgs1 ++ [⟨"assistant", run.result.getD ("")⟩], false, some run, some src, searchErrors + run.errors⟩
  else
    ⟨msgs1, false, some run, none, searchErrors + run.errors⟩

/-- The per-turn control flow of the second variant's `main` after the
classifier has run: append the user message; if `prod and qty` is
truthy, substitute the default emission factor when no emissions were
declared, and if an emission factor is available answer on the fast
path; otherwise fall through to the slow path. -/
def turnOfParse (carbon_price : ℚ) (msgs : List Message) (question : String)
    (p : ParsedRequest) (searchResp : Except String (List SearchResult))
    (oracle : Nat → Attempt) (now last : ℚ) : TurnResult :=
  let msgs1 := msgs ++ [⟨"user", question⟩]
  if pyTruthyStr p.product && pyTruthyNat p.quantity then
    let em := match p.emissions with
      | some e => some e
      | none => DEFAULT_EMISSIONS (p.product.getD (""))
    match em with
    | some e =>
        let qty := p.quantity.getD 0
        let total_em := e * (qty : ℚ)
        let cost := calculate_cbam_cost carbon_price total_em p.origin_price none
        let resp := fastResponse (p.product.getD ("")) qty e total_em carbon_price p.origin_price cost
        ⟨msgs1 ++ [⟨"assistant", resp⟩], true, none, none, 0⟩
    | none => slowTurn msgs1 searchResp oracle now last
  else slowTurn msgs1 searchResp oracle now last

/-- One chat turn of the second variant's `main` on input `question`:
run `extract_cbam_request` and dispatch. -/
def mainTurn (carbon_price : ℚ) (msgs : List Message) (question : String)
    (searchResp : Except String (List SearchResult)) (oracle : Nat → Attempt)
    (now last : ℚ) : TurnResult :=
  turnOfParse carbon_price msgs question (extract_cbam_request question) searchResp oracle now last

/- ================= Carbon-price UI state machine ================= -/

/-- The `RECENT_PRICES` table of the second variant. -/
def RECENT_PRICES : String → Option ℚ
  | "2025-10-31" => some (3927 / 50)
  | "2025-10-01" => some (763 / 10)
  | "2025-09-15" => some (374 / 5)
  | "2025-09-01" => some (366 / 5)
  | _ => none

/-- The price-related session state mutated by `render_config_ui`. -/
structure PriceState where
  carbon_price : ℚ
  selected_historic_date : Option String
  manual_override_price : Option ℚ
deriving DecidableEq

/-- The price state after `init_session_state`. -/
def initPriceState : PriceState :=
  ⟨DEFAULT_CARBON_PRICE, none, none⟩

/-- User price actions offered by `render_config_ui`: pressing a
historic-date button, pressing `Update Price` with a value, pressing
`Reset`. -/
inductive PriceAction where
  | selectHistoric : String → ℚ → PriceAction
  | manualUpdate : ℚ → PriceAction
  | reset : PriceAction

/-- Effect of one user price action on the session state, following
`render_config_ui`: a historic button exists only for entries of
`RECENT_PRICES` and sets the price while clearing the manual override;
the manual-entry controls are rendered `disabled` while a historic date
is selected, so the update is a no-op then; an enabled update with a
non-positive value is rejected with a warning and changes nothing; a
positive value sets the price and clears the historic selection; the
`Reset` button is rendered only when an override or a historic
selection is active and restores the default price clearing both. -/
def priceStep (s : PriceState) : PriceAction → PriceState
  | PriceAction.selectHistoric date price =>
      if RECENT_PRICES date = some price then ⟨price, some date, none⟩ else s
  | PriceAction.manualUpdate new_price =>
      if s.selected_historic_date.isSome then s
      else if 0 < new_price then ⟨new_price, none, some new_price⟩
      else s
  | PriceAction.reset =>
      if s.manual_override_price.isSome || s.selected_historic_date.isSome then
        ⟨DEFAULT_CARBON_PRICE, none, none⟩
      else s

/-- States reachable from the initial session state by user price
actions. -/
inductive ReachablePrice : PriceState → Prop where
  | init : ReachablePrice initPriceState
  | step : ∀ {s : PriceState} (a : PriceAction), ReachablePrice s → ReachablePrice (priceStep s a)

/- ================= Helper lemmas ================= -/

set_option maxRecDepth 100000

/-- Python truthiness of an optional string, unfolded. -/
lemma pyTruthyStr_iff (x : Option String) :
    pyTruthyStr x = true ↔ ∃ s, x = some s ∧ s ≠ "" := by
  cases x <;> simp [pyTruthyStr]

/-- Python truthiness of an optional integer, unfolded. -/
lemma pyTruthyNat_iff (x : Option Nat) :
    pyTruthyNat x = true ↔ ∃ n, x = some n ∧ n ≠ 0 := by
  cases x <;> simp [pyTruthyNat]

/-- The pre-request throttle: the adjusted clock equals
`max now (last + MIN_REQUEST_INTERVAL)`. -/
lemma throttle_start_eq (now last : ℚ) :
    (if now - last < MIN_REQUEST_INTERVAL then now + (MIN_REQUEST_INTERVAL - (now - last)) else now)
      = max now (last + MIN_REQUEST_INTERVAL) := by
  by_cases h : now - last < MIN_REQUEST_INTERVAL
  · rw [if_pos h, max_eq_right (by linarith)]
    ring
  · rw [if_neg h, max_eq_left (by linarith)]

/-- Unfolding `llm_complete` into the retry loop started at the throttled clock. -/
lemma llm_complete_eq (o : Nat → Attempt) (now last : ℚ) (retries : Nat) :
    llm_complete o now last retries
      = llm_loop o retries last retries (max now (last + MIN_REQUEST_INTERVAL)) := by
  rw [show llm_complete o now last retries
      = llm_loop o retries last retries
          (if now - last < MIN_REQUEST_INTERVAL then now + (MIN_REQUEST_INTERVAL - (now - last)) else now)
      from rfl, throttle_start_eq]

/-- Retry loop with `retries = 2`: immediate success. -/
lemma llm_loop2_succ (o : Nat → Attempt) (last s : ℚ) (r : String) (h : (o 0).resp = some r) :
    llm_loop o 2 last 2 s = ⟨some r, [s], s + (o 0).dur, s + (o 0).dur, 0⟩ := by
  simp [llm_loop, h]

/-- Retry loop with `retries = 2`: first attempt raises, second succeeds
after a `RETRY_DELAY * 1` backoff. -/
lemma llm_loop2_fail_succ (o : Nat → Attempt) (last s : ℚ) (r : String)
    (h0 : (o 0).resp = none) (h1 : (o 1).resp = some r) :
    llm_loop o 2 last 2 s =
      ⟨some r, [s, s + (o 0).dur + RETRY_DELAY * 1],
       s + (o 0).dur + RETRY_DELAY * 1 + (o 1).dur,
       s + (o 0).dur + RETRY_DELAY * 1 + (o 1).dur, 0⟩ := by
  simp [llm_loop, h0, h1]

/-- Retry loop with `retries = 2`: both attempts raise; one error is
shown and the marker `last` is preserved. -/
lemma llm_loop2_fail_fail (o : Nat → Attempt) (last s : ℚ)
    (h0 : (o 0).resp = none) (h1 : (o 1).resp = none) :
    llm_loop o 2 last 2 s =
      ⟨none, [s, s + (o 0).dur + RETRY_DELAY * 1],
       s + (o 0).dur + RETRY_DELAY * 1 + (o 1).dur, last, 1⟩ := by
  simp [llm_loop, h0, h1]

/-- The first request of a `retries = 2` call is issued exactly at the
throttled clock `max now (last + MIN_REQUEST_INTERVAL)`. -/
lemma llm_complete2_starts_head (o : Nat → Attempt) (now last : ℚ) :
    (llm_complete o now last 2).starts.head? = some (max now (last + MIN_REQUEST_INTERVAL)) := by
  rw [llm_complete_eq]
  rcases h0 : (o 0).resp with _ | r0
  · rcases h1 : (o 1).resp with _ | r1
    · rw [llm_loop2_fail_fail o last _ h0 h1]
      rfl
    · rw [llm_loop2_fail_succ o last _ r1 h0 h1]
      rfl
  · rw [llm_loop2_succ o last _ r0 h0]
    rfl

/-- A `retries = 2` call issues at least one request. -/
lemma llm_complete2_starts_ne (o : Nat → Attempt) (now last : ℚ) :
    (llm_complete o now last 2).starts ≠ [] := by
  intro hnil
  have h := llm_complete2_starts_head o now last
  rw [hnil] at h
  exact Option.noConfusion h

/-- When a `retries = 2` call returns no answer, the
`last_request_time` marker is unchanged and exactly one user-visible
error was shown. -/
lemma llm_complete2_none (o : Nat → Attempt) (now last : ℚ)
    (h : (llm_complete o now last 2).result = none) :
    (llm_complete o now last 2).last_request_time = last
      ∧ (llm_complete o now last 2).errors = 1 := by
  rw [llm_complete_eq] at h ⊢
  rcases h0 : (o 0).resp with _ | r0
  · rcases h1 : (o 1).resp with _ | r1
    · rw [llm_loop2_fail_fail o last _ h0 h1]
      exact ⟨rfl, rfl⟩
    · rw [llm_loop2_fail_succ o last _ r1 h0 h1] at h
      exact Option.noConfusion h
  · rw [llm_loop2_succ o last _ r0 h0] at h
    exact Option.noConfusion h

/-- Claim C5: before issuing, the client sleeps out the remainder of
`MIN_REQUEST_INTERVAL` since the `last_request_time` marker, so the
first request starts at `max now (last + MIN_REQUEST_INTERVAL)`; the
marker is updated only on success (a fully failed call leaves it
unchanged); and when a call succeeds, the next back-to-back call is
issued no less than `MIN_REQUEST_INTERVAL` after the previous
successful request's marker. -/
theorem llm_complete_throttle (o1 o2 : Nat → Attempt) (now1 now2 last : ℚ) :
    (llm_complete o1 now1 last 2).starts.head? = some (max now1 (last + MIN_REQUEST_INTERVAL))
    ∧ ((llm_complete o1 now1 last 2).result = none →
        (llm_complete o1 now1 last 2).last_request_time = last)
    ∧ ((llm_complete o1 now1 last 2).result.isSome →
        ∀ t, (llm_complete o2 now2 (llm_complete o1 now1 last 2).last_request_time 2).starts.head?
            = some t →
          (llm_complete o1 now1 last 2).last_request_time + MIN_REQUEST_INTERVAL ≤ t) := by
  refine ⟨llm_complete2_starts_head o1 now1 last, fun h => (llm_complete2_none o1 now1 last h).1, ?_⟩
  intro _ t ht
  rw [llm_complete2_starts_head o2 now2 _] at ht
  have := Option.some.inj ht
  subst this
  exact le_max_right _ _

/-- Witness for C5 at a concrete successful first call: the marker is
set to the completion time 3 of the successful request and the second
call starts at 5 = 3 + MIN_REQUEST_INTERVAL. -/
theorem llm_complete_throttle_witness :
    (llm_complete (fun _ => ⟨some ("a"), 1⟩) 0 0 2).last_request_time + MIN_REQUEST_INTERVAL ≤ 5 :=
  (llm_complete_throttle (fun _ => ⟨some ("a"), 1⟩) (fun _ => ⟨some ("a"), 1⟩) 0 0 0).2.2
    (by with_unfolding_all decide) 5 (by with_unfolding_all decide)

/-- Claim C6: with `retries = 2` the client makes at most two attempts;
when the first attempt fails the second is issued after a
`RETRY_DELAY * 1` backoff (the linear schedule 5, 10, … truncated to
one non-final attempt); and when both attempts fail the call returns
the absent value and shows exactly one user-visible error. -/
theorem llm_complete_retry_policy (o : Nat → Attempt) (now last : ℚ) :
    (llm_complete o now last 2).starts.length ≤ 2
    ∧ ((o 0).resp = none →
        (llm_complete o now last 2).starts
          = [max now (last + MIN_REQUEST_INTERVAL),
             max now (last + MIN_REQUEST_INTERVAL) + (o 0).dur + RETRY_DELAY * 1])
    ∧ ((o 0).resp = none → (o 1).resp = none →
        (llm_complete o now last 2).result = none ∧ (llm_complete o now last 2).errors = 1) := by
  rw [llm_complete_eq]
  rcases h0 : (o 0).resp with _ | r0
  · rcases h1 : (o 1).resp with _ | r1
    · rw [llm_loop2_fail_fail o last _ h0 h1]
      exact ⟨by simp, fun _ => rfl, fun _ _ => ⟨rfl, rfl⟩⟩
    · rw [llm_loop2_fail_succ o last _ r1 h0 h1]
      refine ⟨by simp, fun _ => rfl, ?_⟩
      intro _ h
      cases h
  · rw [llm_loop2_succ o last _ r0 h0]
    refine ⟨by simp, ?_, ?_⟩
    · intro h
      cases h
    · intro h _
      cases h

/-- Witness for C6 at a concrete double failure: both attempts fail,
the starts are 2 and 2 + 1 + 5 = 8, no answer, one error. -/
theorem llm_complete_retry_policy_witness :
    (llm_complete (fun _ => ⟨none, 1⟩) 0 0 2).starts = [2, 8]
      ∧ (llm_complete (fun _ => ⟨none, 1⟩) 0 0 2).result = none
      ∧ (llm_complete (fun _ => ⟨none, 1⟩) 0 0 2).errors = 1 := by
  have h := llm_complete_retry_policy (fun _ => ⟨none, 1⟩) 0 0
  refine ⟨?_, (h.2.2 rfl rfl).1, (h.2.2 rfl rfl).2⟩
  rw [h.2.1 rfl]
  norm_num [MIN_REQUEST_INTERVAL, RETRY_DELAY]

/- ================= Cost-calculator claims ================= -/

/-- Claim C1 (amended): for totalEmissions ≥ 0, originPrice ≥ 0 and an
explicitly passed euPrice that is strictly positive, the second
variant's `calculate_cbam_cost` returns
`max 0 (totalEmissions * (euPrice - originPrice))`, is non-negative,
and equals 0 whenever euPrice ≤ originPrice; in the first variant the
same holds for every explicitly passed euPrice ≥ 0 (an explicit
`0.0` in the second variant instead falls back to the session price,
see the C10 theorem). -/
theorem calculate_cbam_cost_explicit (cp e o eu : ℚ)
    (he : 0 ≤ e) (ho : 0 ≤ o) (heu : 0 < eu) :
    calculate_cbam_cost cp e o (some eu) = max 0 (e * (eu - o))
    ∧ 0 ≤ calculate_cbam_cost cp e o (some eu)
    ∧ (eu ≤ o → calculate_cbam_cost cp e o (some eu) = 0)
    ∧ ∀ eu1 : ℚ, 0 ≤ eu1 →
        calculate_cbam_cost_v1 cp e o (some eu1) = max 0 (e * (eu1 - o))
        ∧ (eu1 ≤ o → calculate_cbam_cost_v1 cp e o (some eu1) = 0) := by
  have hform : calculate_cbam_cost cp e o (some eu) = max 0 (e * (eu - o)) := by
    simp [calculate_cbam_cost, ne_of_gt heu]
  refine ⟨hform, ?_, ?_, ?_⟩
  · rw [hform]
    exact le_max_left _ _
  · intro hle
    rw [hform]
    exact max_eq_left (mul_nonpos_iff.mpr (Or.inl ⟨he, sub_nonpos.mpr hle⟩))
  · intro eu1 _
    refine ⟨rfl, fun hle => ?_⟩
    exact max_eq_left (mul_nonpos_iff.mpr (Or.inl ⟨he, sub_nonpos.mpr hle⟩))

/-- Witness for the amended C1: at emissions 2, origin price 3 and
explicit EU price 1 ≤ 3 the cost clamps to 0 in both variants. -/
theorem calculate_cbam_cost_explicit_witness :
    calculate_cbam_cost 7 2 3 (some 1) = 0 ∧ calculate_cbam_cost_v1 7 2 3 (some 1) = 0 :=
  ⟨(calculate_cbam_cost_explicit 7 2 3 1 (by norm_num) (by norm_num) (by norm_num)).2.2.1
      (by norm_num),
   ((calculate_cbam_cost_explicit 7 2 3 1 (by norm_num) (by norm_num) (by norm_num)).2.2.2 1
      (by norm_num)).2 (by norm_num)⟩

/-- Counterexample to C1 as stated: with the session price at its
default 78.54, an explicitly passed euPrice of 0 (≥ 0, and ≤ the origin
price 0) yields 78.54, not `max 0 (1 * (0 - 0)) = 0`, because the
second variant's `or` fallback treats 0.0 as absent. -/
theorem calculate_cbam_cost_explicit_counterexample :
    calculate_cbam_cost DEFAULT_CARBON_PRICE 1 0 (some 0) = DEFAULT_CARBON_PRICE
    ∧ calculate_cbam_cost DEFAULT_CARBON_PRICE 1 0 (some 0) ≠ max 0 (1 * ((0 : ℚ) - 0)) := by
  norm_num [calculate_cbam_cost, DEFAULT_CARBON_PRICE]

/-- Claim C10: in the second variant an explicitly passed `eu_price`
of 0.0 is treated exactly like an omitted one — the session carbon
price is substituted — and the result can be strictly positive. -/
theorem calculate_cbam_cost_zero_fallback (cp e o : ℚ) :
    calculate_cbam_cost cp e o (some 0) = max 0 (e * (cp - o))
    ∧ calculate_cbam_cost cp e o (some 0) = calculate_cbam_cost cp e o none
    ∧ 0 < calculate_cbam_cost DEFAULT_CARBON_PRICE 1 0 (some 0) := by
  refine ⟨by simp [calculate_cbam_cost], by simp [calculate_cbam_cost], ?_⟩
  norm_num [calculate_cbam_cost, DEFAULT_CARBON_PRICE]

/- ================= Context-retriever claim ================= -/

/-- Claim C4: on a result list the second variant's `cortex_search`
returns the blank-line-separated concatenation of the `text` fields in
ranked order, apostrophes removed, truncated to 8000 characters, paired
with the top match's `file_name` (sentinel `"No source"` on an empty
list); on a raised external call it returns the degraded pair
`("", "Error")` instead of propagating, and the slow path still reaches
the completion client, so the turn continues. -/
theorem cortex_search_spec :
    (∀ e, cortex_search (Except.error e) = ("", "Error"))
    ∧ (∀ results : List SearchResult,
        cortex_search (Except.ok results)
          = (pyTruncate 8000 (pyStripApos (pyJoin ("\n\n") (results.map SearchResult.text))),
             ((results.head?).map SearchResult.file_name).getD ("No source")))
    ∧ (∀ (msgs1 : List Message) (e : String) (o : Nat → Attempt) (now last : ℚ),
        (slowTurn msgs1 (Except.error e) o now last).llm = some (llm_complete o now last 2)) := by
  refine ⟨fun e => rfl, fun results => ?_, fun msgs1 e o now last => ?_⟩
  · cases results <;> rfl
  · unfold slowTurn
    dsimp only
    split <;> rfl

/- ================= Orchestrator lemmas ================= -/

/-- The slow branch never reports a fast-path answer. -/
lemma slowTurn_isFast (msgs1 : List Message) (sr : Except String (List SearchResult))
    (o : Nat → Attempt) (now last : ℚ) :
    (slowTurn msgs1 sr o now last).isFast = false := by
  unfold slowTurn
  dsimp only
  split <;> rfl

/-- The slow branch always records a completion-client run. -/
lemma slowTurn_llm (msgs1 : List Message) (sr : Except String (List SearchResult))
    (o : Nat → Attempt) (now last : ℚ) :
    (slowTurn msgs1 sr o now last).llm = some (llm_complete o now last 2) := by
  unfold slowTurn
  dsimp only
  split <;> rfl

/-- Case analysis of the slow branch on the completion-client result:
no answer and an empty-string answer leave only `msgs1` with no
citation; a nonempty answer is appended with the citation. -/
lemma slowTurn_cases (msgs1 : List Message) (sr : Except String (List SearchResult))
    (o : Nat → Attempt) (now last : ℚ) :
    ((llm_complete o now last 2).result = none →
      slowTurn msgs1 sr o now last
        = ⟨msgs1, false, some (llm_complete o now last 2), none,
           cortexErrors sr + (llm_complete o now last 2).errors⟩)
    ∧ (∀ a, (llm_complete o now last 2).result = some a → a ≠ "" →
      slowTurn msgs1 sr o now last
        = ⟨msgs1 ++ [⟨"assistant", a⟩], false, some (llm_complete o now last 2),
           some (cortex_search sr).2, cortexErrors sr + (llm_complete o now last 2).errors⟩)
    ∧ ((llm_complete o now last 2).result = some ("") →
      slowTurn msgs1 sr o now last
        = ⟨msgs1, false, some (llm_complete o now last 2), none,
           cortexErrors sr + (llm_complete o now last 2).errors⟩) := by
  refine ⟨fun h => ?_, fun a h ha => ?_, fun h => ?_⟩ <;>
    (unfold slowTurn; dsimp only; rw [h])
  · rfl
  · rw [if_pos (by simpa [pyTruthyStr] using ha)]
    simp [pyTruthyStr]
  · rw [if_neg (by simp [pyTruthyStr])]

/-- Structure of one turn for an arbitrary parse result `p`: the fast
path is taken exactly when `prod and qty` is Python-truthy and an
emission factor (declared or default) is available; a fast turn appends
one assistant message and never runs the completion client; a slow
turn is exactly the slow branch on the conversation with the user
message appended. -/
lemma turnOfParse_cases (cp : ℚ) (msgs : List Message) (q : String) (p : ParsedRequest)
    (sr : Except String (List SearchResult)) (o : Nat → Attempt) (now last : ℚ) :
    ((turnOfParse cp msgs q p sr o now last).isFast = true ↔
      (pyTruthyStr p.product = true ∧ pyTruthyNat p.quantity = true
        ∧ (p.emissions.isSome ∨ (DEFAULT_EMISSIONS (p.product.getD (""))).isSome)))
    ∧ ((turnOfParse cp msgs q p sr o now last).isFast = true →
        (turnOfParse cp msgs q p sr o now last).llm = none
        ∧ ∃ resp, (turnOfParse cp msgs q p sr o now last).messages
            = msgs ++ [⟨"user", q⟩, ⟨"assistant", resp⟩])
    ∧ ((turnOfParse cp msgs q p sr o now last).isFast = false →
        turnOfParse cp msgs q p sr o now last
          = slowTurn (msgs ++ [⟨"user", q⟩]) sr o now last) := by
  unfold turnOfParse
  dsimp only
  by_cases hb : (pyTruthyStr p.product && pyTruthyNat p.quantity) = true
  · rw [if_pos hb]
    have hb' := hb
    rw [Bool.and_eq_true] at hb'
    rcases hb' with ⟨hb1, hb2⟩
    cases hem : p.emissions with
    | some e =>
        refine ⟨by simp [hb1, hb2], fun _ => ⟨rfl, ?_⟩, fun hf => by cases hf⟩
        exact ⟨fastResponse (p.product.getD ("")) (p.quantity.getD 0) e
            (e * ((p.quantity.getD 0 : Nat) : ℚ)) cp p.origin_price
            (calculate_cbam_cost cp (e * ((p.quantity.getD 0 : Nat) : ℚ)) p.origin_price none),
          by simp⟩
    | none =>
        cases hdef : DEFAULT_EMISSIONS (p.product.getD ("")) with
        | some e =>
            refine ⟨by simp [hb1, hb2, hdef], fun _ => ⟨rfl, ?_⟩, fun hf => by cases hf⟩
            exact ⟨fastResponse (p.product.getD ("")) (p.quantity.getD 0) e
                (e * ((p.quantity.getD 0 : Nat) : ℚ)) cp p.origin_price
                (calculate_cbam_cost cp (e * ((p.quantity.getD 0 : Nat) : ℚ)) p.origin_price none),
              by simp⟩
        | none =>
            refine ⟨?_, ?_, fun _ => rfl⟩
            · rw [slowTurn_isFast]
              simp [hdef]
            · rw [slowTurn_isFast]
              intro hf
              cases hf
  · rw [if_neg hb]
    refine ⟨?_, ?_, fun _ => rfl⟩
    · rw [slowTurn_isFast]
      rw [Bool.and_eq_true] at hb
      constructor
      · intro h
        cases h
      · intro h
        exact absurd ⟨h.1, h.2.1⟩ hb
    · rw [slowTurn_isFast]
      intro hf
      cases hf

/- ================= Orchestrator claims ================= -/

/-- Claim C2 (amended): the fast path is taken iff the classifier
extracts a (necessarily nonempty) product and a NONZERO quantity and an
emission factor is available (declared emissions present, or the
product a key of `DEFAULT_EMISSIONS`); a fast turn appends the
calculation and never invokes the completion client; every other turn
runs the slow path and issues at least one completion request, so no
question ends a turn without either a calculation or an LLM attempt.
(The original claim fails for an extracted quantity of 0, which Python
truthiness routes to the slow path.) -/
theorem main_fast_path_iff (cp : ℚ) (msgs : List Message) (q : String)
    (sr : Except String (List SearchResult)) (o : Nat → Attempt) (now last : ℚ) :
    ((mainTurn cp msgs q sr o now last).isFast = true ↔
      ((∃ s, (extract_cbam_request q).product = some s ∧ s ≠ "")
        ∧ (∃ n, (extract_cbam_request q).quantity = some n ∧ n ≠ 0)
        ∧ ((extract_cbam_request q).emissions.isSome
            ∨ (DEFAULT_EMISSIONS ((extract_cbam_request q).product.getD (""))).isSome)))
    ∧ ((mainTurn cp msgs q sr o now last).isFast = true →
        (mainTurn cp msgs q sr o now last).llm = none
        ∧ ∃ resp, (mainTurn cp msgs q sr o now last).messages
            = msgs ++ [⟨"user", q⟩, ⟨"assistant", resp⟩])
    ∧ ((mainTurn cp msgs q sr o now last).isFast = false →
        ∃ run, (mainTurn cp msgs q sr o now last).llm = some run ∧ run.starts ≠ []) := by
  have h := turnOfParse_cases cp msgs q (extract_cbam_request q) sr o now last
  refine ⟨?_, h.2.1, ?_⟩
  · rw [show mainTurn cp msgs q sr o now last
        = turnOfParse cp msgs q (extract_cbam_request q) sr o now last from rfl,
      h.1, pyTruthyStr_iff, pyTruthyNat_iff]
  · intro hslow
    rw [show mainTurn cp msgs q sr o now last
        = turnOfParse cp msgs q (extract_cbam_request q) sr o now last from rfl,
      h.2.2 hslow, slowTurn_llm]
    exact ⟨llm_complete o now last 2, rfl, llm_complete2_starts_ne o now last⟩

/-- Witness for the amended C2 on the fast input "100 tons of steel":
the turn never reaches the completion client and appends the
calculation as the assistant message. -/
theorem main_fast_path_iff_witness :
    (mainTurn DEFAULT_CARBON_PRICE [] ("100 tons of steel") (Except.ok [])
        (fun _ => ⟨none, (0 : ℚ)⟩) 0 0).llm = none
    ∧ ∃ resp, (mainTurn DEFAULT_CARBON_PRICE [] ("100 tons of steel") (Except.ok [])
        (fun _ => ⟨none, (0 : ℚ)⟩) 0 0).messages
          = [] ++ [⟨"user", ("100 tons of steel")⟩, ⟨"assistant", resp⟩] :=
  (main_fast_path_iff DEFAULT_CARBON_PRICE [] ("100 tons of steel") (Except.ok [])
      (fun _ => ⟨none, (0 : ℚ)⟩) 0 0).2.1 (by with_unfolding_all decide)

/-- Counterexample to C2 as stated: on "0 tons of steel" the classifier
extracts product "steel" and quantity 0 and steel is a key of the
default table, yet the turn takes the slow path, because `if prod and
qty:` treats the extracted quantity 0 as falsy. -/
theorem main_fast_path_counterexample :
    (extract_cbam_request ("0 tons of steel")).product = some ("steel")
    ∧ (extract_cbam_request ("0 tons of steel")).quantity = some 0
    ∧ (DEFAULT_EMISSIONS ("steel")).isSome = true
    ∧ (mainTurn DEFAULT_CARBON_PRICE [] ("0 tons of steel") (Except.ok [])
        (fun _ => ⟨none, (0 : ℚ)⟩) 0 0).isFast = false := by
  with_unfolding_all decide

/-- Claim C7 (amended): on a slow-path turn, when the completion client
returns no answer the conversation ends with exactly the just-appended
user message, no citation is shown, and at least one user-visible error
has been surfaced (by the client's final failure); when a NONEMPTY
result is returned it is appended as an assistant message together with
its source citation; an empty-string result is treated like no answer
by `if answer:` — nothing is appended and no citation shown (though no
error is surfaced in that case). -/
theorem main_slow_path_outcome (cp : ℚ) (msgs : List Message) (q : String)
    (sr : Except String (List SearchResult)) (o : Nat → Attempt) (now last : ℚ)
    (hslow : (mainTurn cp msgs q sr o now last).isFast = false) :
    ∃ run, (mainTurn cp msgs q sr o now last).llm = some run
      ∧ (run.result = none →
          (mainTurn cp msgs q sr o now last).messages = msgs ++ [⟨"user", q⟩]
          ∧ (mainTurn cp msgs q sr o now last).citedSource = none
          ∧ 1 ≤ (mainTurn cp msgs q sr o now last).errors)
      ∧ (∀ a, run.result = some a → a ≠ "" →
          (mainTurn cp msgs q sr o now last).messages
            = msgs ++ [⟨"user", q⟩, ⟨"assistant", a⟩]
          ∧ (mainTurn cp msgs q sr o now last).citedSource = some (cortex_search sr).2)
      ∧ (run.result = some ("") →
          (mainTurn cp msgs q sr o now last).messages = msgs ++ [⟨"user", q⟩]
          ∧ (mainTurn cp msgs q sr o now last).citedSource = none) := by
  have heq : mainTurn cp msgs q sr o now last
      = slowTurn (msgs ++ [⟨"user", q⟩]) sr o now last :=
    (turnOfParse_cases cp msgs q (extract_cbam_request q) sr o now last).2.2 hslow
  have hc := slowTurn_cases (msgs ++ [⟨"user", q⟩]) sr o now last
  refine ⟨llm_complete o now last 2, by rw [heq, slowTurn_llm], ?_, ?_, ?_⟩
  · intro hres
    rw [heq, hc.1 hres]
    refine ⟨rfl, rfl, ?_⟩
    have := (llm_complete2_none o now last hres).2
    simp [this]
  · intro a hres ha
    rw [heq, hc.2.1 a hres ha]
    exact ⟨by simp, rfl⟩
  · intro hres
    rw [heq, hc.2.2 hres]
    exact ⟨rfl, rfl⟩

/-- Witness for the amended C7 on the slow input "hello" with a
completion client that raises on every attempt. -/
theorem main_slow_path_outcome_witness :
    ∃ run, (mainTurn DEFAULT_CARBON_PRICE [] ("hello") (Except.ok [])
        (fun _ => ⟨none, (0 : ℚ)⟩) 0 0).llm = some run
      ∧ (run.result = none →
          (mainTurn DEFAULT_CARBON_PRICE [] ("hello") (Except.ok [])
              (fun _ => ⟨none, (0 : ℚ)⟩) 0 0).messages = [] ++ [⟨"user", ("hello")⟩]
          ∧ (mainTurn DEFAULT_CARBON_PRICE [] ("hello") (Except.ok [])
              (fun _ => ⟨none, (0 : ℚ)⟩) 0 0).citedSource = none
          ∧ 1 ≤ (mainTurn DEFAULT_CARBON_PRICE [] ("hello") (Except.ok [])
              (fun _ => ⟨none, (0 : ℚ)⟩) 0 0).errors)
      ∧ (∀ a, run.result = some a → a ≠ "" →
          (mainTurn DEFAULT_CARBON_PRICE [] ("hello") (Except.ok [])
              (fun _ => ⟨none, (0 : ℚ)⟩) 0 0).messages
            = [] ++ [⟨"user", ("hello")⟩, ⟨"assistant", a⟩]
          ∧ (mainTurn DEFAULT_CARBON_PRICE [] ("hello") (Except.ok [])
              (fun _ => ⟨none, (0 : ℚ)⟩) 0 0).citedSource
              = some (cortex_search (Except.ok [])).2)
      ∧ (run.result = some ("") →
          (mainTurn DEFAULT_CARBON_PRICE [] ("hello") (Except.ok [])
              (fun _ => ⟨none, (0 : ℚ)⟩) 0 0).messages = [] ++ [⟨"user", ("hello")⟩]
          ∧ (mainTurn DEFAULT_CARBON_PRICE [] ("hello") (Except.ok [])
              (fun _ => ⟨none, (0 : ℚ)⟩) 0 0).citedSource = none) :=
  main_slow_path_outcome DEFAULT_CARBON_PRICE [] ("hello") (Except.ok [])
    (fun _ => ⟨none, (0 : ℚ)⟩) 0 0 (by with_unfolding_all decide)

/-- Counterexample to C7 as stated: on the slow input "hello" the
completion client returns the empty string — a result IS returned —
yet no assistant message is appended and no citation is shown, because
`if answer:` is falsy on the empty string. -/
theorem main_slow_path_counterexample :
    (mainTurn DEFAULT_CARBON_PRICE [] ("hello") (Except.ok [])
        (fun _ => ⟨some (""), (0 : ℚ)⟩) 0 0).isFast = false
    ∧ (llm_complete (fun _ => ⟨some (""), (0 : ℚ)⟩) 0 0 2).result = some ("")
    ∧ (mainTurn DEFAULT_CARBON_PRICE [] ("hello") (Except.ok [])
        (fun _ => ⟨some (""), (0 : ℚ)⟩) 0 0).llm
        = some (llm_complete (fun _ => ⟨some (""), (0 : ℚ)⟩) 0 0 2)
    ∧ (mainTurn DEFAULT_CARBON_PRICE [] ("hello") (Except.ok [])
        (fun _ => ⟨some (""), (0 : ℚ)⟩) 0 0).messages = [⟨"user", ("hello")⟩]
    ∧ (mainTurn DEFAULT_CARBON_PRICE [] ("hello") (Except.ok [])
        (fun _ => ⟨some (""), (0 : ℚ)⟩) 0 0).citedSource = none := by
  with_unfolding_all decide

/- ================= Carbon-price state claims ================= -/

/-- One price action preserves the mutual-exclusion invariant. -/
lemma priceStep_preserves (s : PriceState) (a : PriceAction)
    (h : ¬(s.manual_override_price.isSome ∧ s.selected_historic_date.isSome)) :
    ¬((priceStep s a).manual_override_price.isSome
      ∧ (priceStep s a).selected_historic_date.isSome) := by
  cases a with
  | selectHistoric d p =>
      simp only [priceStep]
      split
      · simp
      · exact h
  | manualUpdate p =>
      simp only [priceStep]
      split
      · exact h
      · split
        · simp
        · exact h
  | reset =>
      simp only [priceStep]
      split
      · simp
      · exact h

/-- Every reachable price state satisfies the mutual-exclusion
invariant. -/
lemma reachable_price_inv (s : PriceState) (h : ReachablePrice s) :
    ¬(s.manual_override_price.isSome ∧ s.selected_historic_date.isSome) := by
  induction h with
  | init => simp [initPriceState]
  | step a _ ih => exact priceStep_preserves _ a ih

/-- Claim C8: in every reachable price state the manual override and
the historic-date selection are never simultaneously active, and every
action preserves this; selecting a historic date clears the manual
override; committing a positive manual price (with the control enabled)
clears the historic selection; reset leaves both cleared; a rejected
manual entry (value ≤ 0) leaves the state unchanged; and the manual
entry control is disabled (a no-op) while a historic date is active. -/
theorem price_state_mutual_exclusion (s : PriceState) (h : ReachablePrice s) :
    ¬(s.manual_override_price.isSome ∧ s.selected_historic_date.isSome)
    ∧ (∀ a, ¬((priceStep s a).manual_override_price.isSome
              ∧ (priceStep s a).selected_historic_date.isSome))
    ∧ (∀ d p, RECENT_PRICES d = some p →
        priceStep s (PriceAction.selectHistoric d p) = ⟨p, some d, none⟩)
    ∧ (∀ p, 0 < p → s.selected_historic_date = none →
        priceStep s (PriceAction.manualUpdate p) = ⟨p, none, some p⟩)
    ∧ ((priceStep s PriceAction.reset).manual_override_price = none
       ∧ (priceStep s PriceAction.reset).selected_historic_date = none)
    ∧ (∀ p, p ≤ 0 → priceStep s (PriceAction.manualUpdate p) = s)
    ∧ (∀ p, s.selected_historic_date.isSome →
        priceStep s (PriceAction.manualUpdate p) = s) := by
  refine ⟨reachable_price_inv s h, fun a => priceStep_preserves s a (reachable_price_inv s h),
    ?_, ?_, ?_, ?_, ?_⟩
  · intro d p hdp
    simp [priceStep, hdp]
  · intro p hp hnone
    simp [priceStep, hnone, hp]
  · cases hm : s.manual_override_price with
    | some v => simp [priceStep, hm]
    | none =>
        cases hh : s.selected_historic_date with
        | some d => simp [priceStep, hm, hh]
        | none => simp [priceStep, hm, hh]
  · intro p hp
    simp only [priceStep]
    split
    · rfl
    · rw [if_neg (not_lt.mpr hp)]
  · intro p hsome
    simp [priceStep, hsome]

/-- Witness for C8 at the initial state (reachable by construction):
the invariant holds there and a historic-date selection from the table
sets the price while clearing the manual override. -/
theorem price_state_mutual_exclusion_witness :
    ¬(initPriceState.manual_override_price.isSome
      ∧ initPriceState.selected_historic_date.isSome)
    ∧ priceStep initPriceState (PriceAction.selectHistoric ("2025-10-01") (763 / 10))
        = ⟨763 / 10, some ("2025-10-01"), none⟩ :=
  ⟨(price_state_mutual_exclusion initPriceState ReachablePrice.init).1,
   (price_state_mutual_exclusion initPriceState ReachablePrice.init).2.2.1
     ("2025-10-01") (763 / 10) rfl⟩

/- ================= Classifier claims ================= -/

/-- Spec-side reading of the quantity clause of the classifier claim:
the integer group of the first quantity/product match, thousands
separators stripped. -/
def specQuantity (t : String) : Option Nat :=
  (reSearch qtyRE t.data).bind
    (fun g => (g.lookup 1).map (fun cs => natOfDigits (cs.filter (fun c => c ≠ ','))))

/-- Spec-side reading of the product clause: the word group of the
first quantity/product match, lower-cased. -/
def specProduct (t : String) : Option String :=
  (reSearch qtyRE t.data).bind
    (fun g => (g.lookup 2).map (fun cs => String.mk (cs.map Char.toLower)))

/-- Spec-side reading of the declared-emissions clause: the number of
the first emissions match anywhere in the text, absent when no match. -/
def specEmissions (t : String) : Option ℚ :=
  (reSearch emRE t.data).bind (fun g => (g.lookup 1).map ratOfDecimal)

/-- Spec-side reading of the origin-price clause: the first number
following one of the literal words, defaulting to 0.0 when absent. -/
def specOriginPrice (t : String) : ℚ :=
  (((reSearch originRE t.data).bind (fun g => g.lookup 1)).map ratOfDecimal).getD 0

/-- The classifier claim's description assembled from its four
independent clauses. -/
def classify_spec (t : String) : ParsedRequest :=
  ⟨specProduct t, specQuantity t, specEmissions t, specOriginPrice t⟩

/-- Claim C3 (amended): for every input string, `extract_cbam_request`
equals the claim's componentwise description — quantity and product
from the first match of the quantity/product pattern (separators
stripped, product lower-cased, both absent on no match), declared
emissions from the first match of the number-then-tCO2 pattern whose
trailing `e` is OPTIONAL (`tCO2` alone suffices), and origin price as
the first number following the literal word origin/paid/cost across
arbitrary intervening NON-NEWLINE text, defaulting to 0.0 — the three
matches attempted independently against the full input. -/
theorem extract_cbam_request_componentwise (t : String) :
    extract_cbam_request t = classify_spec t := by
  have hp : (extract_cbam_request t).product = specProduct t := by
    show (match reSearch qtyRE t.data with
          | some g => (g.lookup 2).map (fun cs => String.mk (cs.map Char.toLower))
          | none => none) = specProduct t
    unfold specProduct
    cases reSearch qtyRE t.data <;> rfl
  have hq : (extract_cbam_request t).quantity = specQuantity t := by
    show (match reSearch qtyRE t.data with
          | some g => (g.lookup 1).map (fun cs => natOfDigits (cs.filter (fun c => c ≠ ',')))
          | none => none) = specQuantity t
    unfold specQuantity
    cases reSearch qtyRE t.data <;> rfl
  have he : (extract_cbam_request t).emissions = specEmissions t := by
    show (match reSearch emRE t.data with
          | some g => (g.lookup 1).map ratOfDecimal
          | none => none) = specEmissions t
    unfold specEmissions
    cases reSearch emRE t.data <;> rfl
  have ho2 : (extract_cbam_request t).origin_price = specOriginPrice t := by
    show (match reSearch originRE t.data with
          | some g =>
              match g.lookup 1 with
              | some cs => ratOfDecimal cs
              | none => 0
          | none => 0) = specOriginPrice t
    unfold specOriginPrice
    cases reSearch originRE t.data with
    | none => rfl
    | some g =>
        show (match List.lookup 1 g with
              | some cs => ratOfDecimal cs
              | none => (0 : ℚ))
            = (Option.map ratOfDecimal (List.lookup 1 g)).getD 0
        cases List.lookup 1 g <;> rfl
  rw [show classify_spec t
      = ⟨specProduct t, specQuantity t, specEmissions t, specOriginPrice t⟩ from rfl,
    ← hp, ← hq, ← he, ← ho2]

/-- The original claim's emissions pattern, with the trailing `e`
mandatory as the claim text `tCO2e[/ton]` states. -/
def emREclaim : RE :=
  RE.cat (RE.group 1 numberRE)
    (RE.cat (RE.star (RE.pred isSpacePy))
      (RE.cat (litStr ("tCO2e".data)) (RE.opt (litStr ("/ton".data)))))

/-- Emissions as the original claim words them. -/
def specEmissionsClaim (t : String) : Option ℚ :=
  (reSearch emREclaim t.data).bind (fun g => (g.lookup 1).map ratOfDecimal)

/-- The original claim's origin pattern when "arbitrary intervening
text" is read literally: the gap may contain any character, including
newlines. -/
def originREclaim : RE :=
  RE.cat (RE.alt (litStr ("origin".data)) (RE.alt (litStr ("paid".data)) (litStr ("cost".data))))
    (RE.cat (RE.lazystar (RE.pred (fun _ => true)))
      (RE.cat (RE.opt (RE.lit '€')) (RE.group 1 numberRE)))

/-- Origin price as the original claim words it. -/
def specOriginPriceClaim (t : String) : ℚ :=
  (((reSearch originREclaim t.data).bind (fun g => g.lookup 1)).map ratOfDecimal).getD 0

/-- Counterexample to C3 as stated: on "3 tCO2" the code extracts
declared emissions 3 although the claim's pattern `tCO2e[/ton]`
(mandatory `e`) has no match; and on an input where a newline separates
"origin" from the number, the code's `.` cannot cross the newline and
yields the 0.0 default although the claim's "arbitrary intervening
text" reading finds 5. -/
theorem extract_cbam_request_claim_counterexample :
    (extract_cbam_request ("3 tCO2")).emissions = some 3
    ∧ specEmissionsClaim ("3 tCO2") = none
    ∧ (extract_cbam_request ("origin" ++ "\n" ++ "5")).origin_price = 0
    ∧ specOriginPriceClaim ("origin" ++ "\n" ++ "5") = 5 := by
  with_unfolding_all decide

/-- The normalized rendering of a fully-populated request, as in the
claim's example "120 tons of steel, 2.3 tCO2e, origin €10". -/
def renderParsed (quantity : Nat) (product : String) (emWhole emFrac originP : Nat) : String :=
  toString quantity ++ " tons of " ++ product ++ ", " ++ toString emWhole ++ "."
    ++ toString emFrac ++ " tCO2e, origin €" ++ toString originP

/-- Claim C9: the classifier is idempotent on its own normalized
output — re-parsing the rendered form of the fully-populated request
(steel, 120, 2.3, 10) yields exactly that request again, in both
variants. -/
theorem classify_idempotent_example :
    renderParsed 120 ("steel") 2 3 10 = "120 tons of steel, 2.3 tCO2e, origin €10"
    ∧ extract_cbam_request (renderParsed 120 ("steel") 2 3 10)
        = ⟨some ("steel"), some 120, some (23 / 10), 10⟩
    ∧ extract_cbam_request_v1 (renderParsed 120 ("steel") 2 3 10)
        = ⟨some ("steel"), some 120, some (23 / 10), 10⟩ := by
  with_unfolding_all decide
